import Mathlib

/-!
Verification of the invoice extraction/correction/validation core of the
`alepsis` repository (Python), as a shallow embedding in Lean 4.

Modelling conventions:
* Python `float` values are embedded as exact rationals (`ℚ`); all tolerance
  comparisons (`> 0.01`, `> 0.5`, ...) are taken over exact arithmetic.
* Python `round(x, 2)` is embedded as `round2`, rounding `x * 100` to the
  nearest integer and dividing by 100.  Python resolves ties to the even
  digit while Mathlib `round` resolves them upward; no theorem below
  evaluates `round2` at a tie, so the two agree on every value reached.
* Python `Optional` fields are `Option` values; a `None` is `Option.none`.
* Python string formatting `f"{x:.2f}"` is embedded as `fmt2`; plain
  `f"{x}"` formatting of a float is embedded as `fmtPy` (exact for the
  finitely-represented values the code formats this way).
-/

/- Batteries marks the arithmetic on `ℚ` `@[irreducible]`, which blocks the
evaluation of the embedded code on concrete inputs by `decide`; restore the
kernel-computable definitions for this development. -/
set_option allowUnsafeReducibility true in
attribute [semireducible] Rat.add Rat.mul Rat.sub Rat.inv Rat.ofScientific

/-- Rounding to two decimal places, embedding Python `round(x, 2)`. -/
def round2 (q : ℚ) : ℚ := (round (q * 100) : ℚ) / 100

/-- Formats a rational to two decimal places, embedding Python `f"{x:.2f}"`. -/
def fmt2 (q : ℚ) : String :=
  let c : ℤ := round (q * 100)
  let sign := if c < 0 then "-" else ""
  let n := c.natAbs
  sign ++ toString (n / 100) ++ "." ++ (if n % 100 < 10 then "0" else "") ++ toString (n % 100)

/-- Renders a rational the way Python `str()` renders a float, for values with
a finite decimal expansion of at most 12 digits (all values the embedded code
formats this way).  Used only in messages no theorem below inspects. -/
def fmtPy (q : ℚ) : String :=
  if q.den = 1 then
    (if q.num < 0 then "-" else "") ++ toString q.num.natAbs ++ ".0"
  else
    let c : ℤ := round (q * 10 ^ 12)
    let sign := if c < 0 then "-" else ""
    let n := c.natAbs
    let whole := toString (n / 10 ^ 12)
    let fracDigits := (Nat.toDigits 10 (n % 10 ^ 12 + 10 ^ 12)).drop 1
    let trimmed := (fracDigits.reverse.dropWhile (fun d => d = '0')).reverse
    sign ++ whole ++ "." ++ String.mk trimmed

/-- Tests whether the first list starts the second. -/
def hasPrefixList : List Char → List Char → Bool
  | [], _ => true
  | _ :: _, [] => false
  | a :: pa, b :: lb => a = b && hasPrefixList pa lb

/-- Tests whether `pat` occurs as a contiguous sublist. -/
def hasSubList (pat : List Char) : List Char → Bool
  | [] => pat.isEmpty
  | c :: t => hasPrefixList pat (c :: t) || hasSubList pat t

/-- Substring test, embedding the Python `in` operator on strings:
`strContains s pat` holds when `pat` occurs inside `s`. -/
def strContains (s pat : String) : Bool := hasSubList pat.toList s.toList

/-- A single product/service line item on an invoice
(`app/models/schemas.py`, class `LineItem`). -/
structure LineItem where
  product_name : Option String := none
  quantity : Option ℚ := none
  unit_price : Option ℚ := none
  amount : Option ℚ := none
deriving DecidableEq

/-- Structured invoice data (`app/models/schemas.py`, class `InvoiceData`). -/
structure InvoiceData where
  vendor_name : Option String := none
  invoice_number : Option String := none
  invoice_date : Option String := none
  line_items : List LineItem := []
  subtotal : Option ℚ := none
  discount_percentage : Option ℚ := none
  discount_amount : Option ℚ := none
  cgst_rate : Option ℚ := none
  cgst_amount : Option ℚ := none
  sgst_rate : Option ℚ := none
  sgst_amount : Option ℚ := none
  tax : Option ℚ := none
  total_amount : Option ℚ := none
  currency : Option String := none
deriving DecidableEq

/-- A single validation issue (`app/models/schemas.py`, class `ValidationError`). -/
structure ValidationError where
  field : String
  message : String
  severity : String
deriving DecidableEq

/-- Aggregated validation results (`app/models/schemas.py`, class `ValidationResult`). -/
structure ValidationResult where
  is_valid : Bool
  errors : List ValidationError := []
  warnings : List ValidationError := []
deriving DecidableEq

/-!
The math corrector, `LLMExtractionService._apply_math_corrections`
(`app/services/extraction.py`, lines 301-392).  The Python method mutates the
record in place through five sequential sections; each section is embedded as
a function `InvoiceData → InvoiceData` and the method is their composition.
-/

/-- Section 1 of `_apply_math_corrections`, body of the per-item loop: fix a
line item amount when `quantity × unit_price` does not match. -/
def fixLineItem (item : LineItem) : LineItem :=
  match item.quantity, item.unit_price with
  | some q, some p =>
    let calculated_amount := round2 (q * p)
    match item.amount with
    | some a =>
      if abs (calculated_amount - a) > 0.01 then
        { item with amount := some calculated_amount }
      else item
    | none => { item with amount := some calculated_amount }
  | _, _ => item

/-- Section 1 of `_apply_math_corrections`: the loop over `line_items`. -/
def fixLineItems (d : InvoiceData) : InvoiceData :=
  { d with line_items := d.line_items.map fixLineItem }

/-- Sum of the present line-item amounts,
`sum(item.amount for item in invoice_data.line_items if item.amount is not None)`. -/
def sumAmounts (items : List LineItem) : ℚ :=
  (items.filterMap LineItem.amount).sum

/-- Section 2 of `_apply_math_corrections`: recalculate `subtotal` from line
items when there is a significant mismatch. -/
def fixSubtotal (d : InvoiceData) : InvoiceData :=
  if d.line_items.isEmpty then d
  else
    let calculated_subtotal := round2 (sumAmounts d.line_items)
    match d.subtotal with
    | some s =>
      if abs (calculated_subtotal - s) > 0.5 then
        { d with subtotal := some calculated_subtotal }
      else d
    | none => { d with subtotal := some calculated_subtotal }

/-- Section 3 of `_apply_math_corrections`: fix `discount_amount` from
`discount_percentage` and `subtotal`. -/
def fixDiscount (d : InvoiceData) : InvoiceData :=
  match d.discount_percentage, d.subtotal with
  | some pct, some s =>
    let calculated_discount := round2 (s * pct / 100)
    match d.discount_amount with
    | some a =>
      if abs (calculated_discount - a) > 0.5 then
        { d with discount_amount := some calculated_discount }
      else d
    | none => { d with discount_amount := some calculated_discount }
  | _, _ => d

/-- Section 4 of `_apply_math_corrections`: sum total tax from CGST/SGST
components when available. -/
def fixTax (d : InvoiceData) : InvoiceData :=
  if d.cgst_amount.isSome || d.sgst_amount.isSome then
    let calculated_tax := round2 (d.cgst_amount.getD 0 + d.sgst_amount.getD 0)
    match d.tax with
    | some t =>
      if abs (calculated_tax - t) > 0.5 ∧ calculated_tax > 0 then
        { d with tax := some calculated_tax }
      else d
    | none =>
      if calculated_tax > 0 then { d with tax := some calculated_tax } else d
  else d

/-- Section 5 of `_apply_math_corrections`: verify and fix `total_amount`
using `subtotal - discount + tax`. -/
def fixTotal (d : InvoiceData) : InvoiceData :=
  match d.subtotal with
  | some s =>
    let calculated_total := round2 (s - d.discount_amount.getD 0 + d.tax.getD 0)
    match d.total_amount with
    | some t =>
      if abs (calculated_total - t) > 0.5 then
        { d with total_amount := some calculated_total }
      else d
    | none => { d with total_amount := some calculated_total }
  | none => d

/-- `LLMExtractionService._apply_math_corrections`
(`app/services/extraction.py`, lines 301-392): the five correction sections
applied in source order. -/
def apply_math_corrections (d : InvoiceData) : InvoiceData :=
  fixTotal (fixTax (fixDiscount (fixSubtotal (fixLineItems d))))

/-!
The validator, class `InvoiceValidator` (`app/validation/validator.py`,
lines 20-357; the trailing duplicate class body after the `return` of
`get_validator` is unreachable and is not part of the behaviour).
-/

/-- Python `str.strip()`: removes leading and trailing whitespace. -/
def pyStrip (s : String) : String :=
  String.mk (((s.toList.dropWhile Char.isWhitespace).reverse.dropWhile Char.isWhitespace).reverse)

/-- Condition `value is None or (isinstance(value, str) and not value.strip())`
for an `Optional[str]` value. -/
def blankStrOpt : Option String → Bool
  | none => true
  | some s => (pyStrip s).toList.isEmpty

/-- Python truthiness of an `Optional[str]` value (`if not data.invoice_number`). -/
def truthyStrOpt : Option String → Bool
  | none => false
  | some s => !s.toList.isEmpty

/-- Outcome of `db_session.query(Invoice).filter(...).first()` in the duplicate
check: an existing invoice (with its `id`), no match, or a raised exception. -/
inductive LookupResult where
  | found (id : Nat)
  | notFound
  | raised
deriving DecidableEq

/-- `InvoiceValidator._check_required_fields` (validator.py, lines 79-101). -/
def check_required_fields (d : InvoiceData) : List ValidationError :=
  (if blankStrOpt d.vendor_name then
    [{ field := "vendor_name",
       message := "Vendor name is missing but required for processing",
       severity := "error" }]
   else []) ++
  (if blankStrOpt d.invoice_number then
    [{ field := "invoice_number",
       message := "Invoice number is missing but required for processing",
       severity := "error" }]
   else [])

/-- `InvoiceValidator._check_amount_integrity` (validator.py, lines 103-150). -/
def check_amount_integrity (d : InvoiceData) : List ValidationError :=
  (if d.subtotal.isNone then
    [{ field := "subtotal",
       message := "Subtotal is missing - required for accounting verification",
       severity := "error" }]
   else []) ++
  (if d.total_amount.isNone then
    [{ field := "total_amount",
       message := "Total amount is missing - required for payment processing",
       severity := "error" }]
   else []) ++
  (match d.subtotal with
   | some s =>
     if s < 0 then
       [{ field := "subtotal",
          message := "Subtotal is negative (" ++ fmt2 s ++ ") - likely extraction error",
          severity := "error" }]
     else []
   | none => []) ++
  (match d.total_amount with
   | some t =>
     if t < 0 then
       [{ field := "total_amount",
          message := "Total amount is negative (" ++ fmt2 t ++ ") - likely extraction error",
          severity := "error" }]
     else []
   | none => []) ++
  (match d.tax with
   | some t =>
     if t < 0 then
       [{ field := "tax",
          message := "Tax is negative (" ++ fmt2 t ++ ") - likely extraction error",
          severity := "error" }]
     else []
   | none => [])

/-- `InvoiceValidator._check_duplicate_invoice` (validator.py, lines 152-182).
The `db_session.query(...).first()` call is abstracted as `lookup`; the
`raised` outcome lands in the `except` clause, which logs and returns the
(empty) error list. -/
def check_duplicate_invoice (d : InvoiceData) (lookup : String → LookupResult) :
    List ValidationError :=
  if !truthyStrOpt d.invoice_number then []
  else
    match lookup (d.invoice_number.getD "") with
    | .found id =>
      [{ field := "invoice_number",
         message := "Invoice number \u0027" ++ d.invoice_number.getD "" ++
           "\u0027 already exists (ID: " ++ toString id ++ ")",
         severity := "error" }]
    | .notFound => []
    | .raised => []

/-- The message of the grand-total error finding (validator.py, lines 204-210):
all four literal numbers to two decimals, the computed total, and the absolute
difference. -/
def mathErrorMessage (s discount tax t : ℚ) : String :=
  "Math error: Subtotal (" ++ fmt2 s ++ ") - Discount (" ++ fmt2 discount ++
    ") + Tax (" ++ fmt2 tax ++ ") = " ++ fmt2 (s - discount + tax) ++
    ", but Grand Total is " ++ fmt2 t ++ ". Difference: " ++
    fmt2 (abs (s - discount + tax - t))

/-- `InvoiceValidator._check_mathematical_consistency` (validator.py,
lines 184-215). -/
def check_mathematical_consistency (d : InvoiceData) : List ValidationError :=
  match d.subtotal, d.total_amount with
  | some s, some t =>
    let discount := d.discount_amount.getD 0
    let tax := d.tax.getD 0
    let calculated_total := s - discount + tax
    let difference := abs (calculated_total - t)
    if difference > 0.01 then
      [{ field := "total_amount",
         message := mathErrorMessage s discount tax t,
         severity := "error" }]
    else []
  | _, _ => []

/-- Body of the loop in `InvoiceValidator._check_line_item_math`
(validator.py, lines 223-237), at index `idx`. -/
def checkLineItem (idx : Nat) (item : LineItem) : List ValidationError :=
  match item.quantity, item.unit_price, item.amount with
  | some q, some p, some a =>
    let expected := q * p
    let difference := abs (expected - a)
    if difference > 0.01 then
      let name :=
        match item.product_name with
        | some n => if n.toList.isEmpty then "Item #" ++ toString (idx + 1) else n
        | none => "Item #" ++ toString (idx + 1)
      [{ field := "line_items[" ++ toString idx ++ "]",
         message := name ++ ": Qty (" ++ fmtPy q ++ ") × Price (" ++ fmt2 p ++
           ") = " ++ fmt2 expected ++ ", but Amount is " ++ fmt2 a,
         severity := "error" }]
    else []
  | _, _, _ => []

/-- `InvoiceValidator._check_line_item_math` (validator.py, lines 217-239). -/
def check_line_item_math (d : InvoiceData) : List ValidationError :=
  d.line_items.enum.flatMap fun p => checkLineItem p.1 p.2

/-- `InvoiceValidator._check_subtotal_consistency` (validator.py,
lines 241-269). -/
def check_subtotal_consistency (d : InvoiceData) : List ValidationError :=
  match d.subtotal with
  | none => []
  | some s =>
    if d.line_items.isEmpty then []
    else if (d.line_items.filterMap LineItem.amount).isEmpty then []
    else
      let items_sum := sumAmounts d.line_items
      let difference := abs (items_sum - s)
      if difference > 1 then
        [{ field := "subtotal",
           message := "Sum of line items (" ++ fmt2 items_sum ++
             ") doesn\u0027t match subtotal (" ++ fmt2 s ++ "). Difference: " ++
             fmt2 difference,
           severity := "warning" }]
      else []

/-- `InvoiceValidator._check_discount_consistency` (validator.py,
lines 271-293). -/
def check_discount_consistency (d : InvoiceData) : List ValidationError :=
  match d.discount_percentage, d.discount_amount, d.subtotal with
  | some pct, some da, some s =>
    let expected_discount := s * pct / 100
    let difference := abs (expected_discount - da)
    if difference > 0.01 then
      [{ field := "discount_amount",
         message := "Discount " ++ fmtPy pct ++ "% of " ++ fmt2 s ++ " = " ++
           fmt2 expected_discount ++ ", but discount amount is " ++ fmt2 da,
         severity := "warning" }]
    else []
  | _, _, _ => []

/-- `InvoiceValidator._check_data_quality` (validator.py, lines 295-342). -/
def check_data_quality (d : InvoiceData) : List ValidationError :=
  (if d.tax.isNone then
    [{ field := "tax",
       message := "Tax amount is missing - may affect tax reporting and reconciliation",
       severity := "warning" }]
   else []) ++
  (if blankStrOpt d.invoice_date then
    [{ field := "invoice_date",
       message := "Invoice date is missing - may affect accounting period assignment",
       severity := "warning" }]
   else []) ++
  (if blankStrOpt d.currency then
    [{ field := "currency",
       message := "Currency not detected - assuming default currency (may cause issues in multi-currency accounting)",
       severity := "warning" }]
   else []) ++
  (match d.total_amount with
   | some t =>
     if t > 1000000 then
       [{ field := "total_amount",
          message := "Unusually large amount (" ++ fmt2 t ++ ") - verify accuracy",
          severity := "warning" }]
     else []
   | none => []) ++
  (if d.line_items.isEmpty then
    [{ field := "line_items",
       message := "No line items extracted - product details may be missing from the invoice",
       severity := "warning" }]
   else [])

/-- `InvoiceValidator.validate` (validator.py, lines 38-77).  The optional
`db_session` argument is abstracted as an optional duplicate-lookup function;
the checks run in source order and `is_valid` is `len(errors) == 0`. -/
def validate (d : InvoiceData) (db_session : Option (String → LookupResult)) :
    ValidationResult :=
  let errors := check_required_fields d ++ check_amount_integrity d ++
    check_mathematical_consistency d ++ check_line_item_math d
  let warnings := check_subtotal_consistency d ++ check_discount_consistency d
  let errors := errors ++
    (match db_session with
     | some lookup => check_duplicate_invoice d lookup
     | none => [])
  let warnings := warnings ++ check_data_quality d
  { is_valid := errors.length == 0, errors := errors, warnings := warnings }

/-!
The status resolver and the approval action (`app/api/routes.py`).
-/

/-- Status resolution after a fresh upload (`upload_invoice`, routes.py,
lines 177-182): `PENDING` by default, `REVIEW_REQUIRED` when the validation
result carries at least one error. -/
def resolve_status (vr : ValidationResult) : String :=
  if vr.errors.length > 0 then "REVIEW_REQUIRED" else "PENDING"

/-- Outcome of the approval endpoint: HTTP 404, HTTP 400 (blocked because the
invoice has validation errors), or success with the stored status. -/
inductive ApprovalOutcome where
  | notFound
  | blocked
  | approved (stored_status : String)
deriving DecidableEq

/-- `approve_invoice` (routes.py, lines 657-723) over the fetched invoice's
status: missing invoice gives 404; status `REVIEW_REQUIRED` gives 400;
otherwise the status is set to `APPROVED` (idempotently). -/
def approve_invoice : Option String → ApprovalOutcome
  | none => .notFound
  | some st =>
    if st = "REVIEW_REQUIRED" then .blocked
    else .approved "APPROVED"

/-!
The numeric coercion `safe_float` used by
`LLMExtractionService._convert_to_invoice_data`
(`app/services/extraction.py`, lines 399-417).
-/

/-- A Python value as `safe_float` may receive it: `None`, an `int` (Python
`bool` is a subtype of `int` and behaves as one here), a `float`, a `str`, a
`dict` (an association list of string keys, first binding wins), or a value of
any other type. -/
inductive PyVal where
  | pynull
  | pyint (n : ℤ)
  | pyfloat (q : ℚ)
  | pystr (s : String)
  | pydict (entries : List (String × PyVal))
  | pyother

/-- The stripping step of `safe_float` on strings:
`value.replace(...)` over the five one-character patterns (comma and the four
currency symbols, each replaced by the empty string, hence a character filter)
followed by `.strip()`. -/
def stripCurrency (s : String) : String :=
  pyStrip (String.mk (s.toList.filter
    (fun c => !(c = ',' || c = '₹' || c = '$' || c = '€' || c = '£'))))

/-- Digits-to-number accumulator for `pyFloat`. -/
def digitsVal (cs : List Char) : Nat :=
  cs.foldl (fun a c => a * 10 + (c.toNat - 48)) 0

/-- Splits a leading sign off a character list. -/
def splitSign : List Char → Bool × List Char
  | '-' :: cs => (true, cs)
  | '+' :: cs => (false, cs)
  | cs => (false, cs)

/-- Parses an unsigned Python float literal: digits, an optional fractional
part, an optional exponent.  Returns `none` where Python `float()` raises
`ValueError` (the special forms `inf`, `nan` and digit-group underscores,
which no caller of `safe_float` produces, are not modelled). -/
def pyFloatCore (cs : List Char) : Option ℚ :=
  let intPart := cs.takeWhile Char.isDigit
  let rest := cs.dropWhile Char.isDigit
  let fracPart :=
    match rest with
    | '.' :: t => t.takeWhile Char.isDigit
    | _ => []
  let rest2 :=
    match rest with
    | '.' :: t => t.dropWhile Char.isDigit
    | _ => rest
  if intPart.isEmpty && fracPart.isEmpty then none
  else
    let mant : ℚ := (digitsVal intPart : ℚ) + (digitsVal fracPart : ℚ) / 10 ^ fracPart.length
    match rest2 with
    | [] => some mant
    | 'e' :: t | 'E' :: t =>
      let signed := splitSign t
      let eds := signed.2.takeWhile Char.isDigit
      let left := signed.2.dropWhile Char.isDigit
      if eds.isEmpty || !left.isEmpty then none
      else some (if signed.1 then mant / 10 ^ digitsVal eds else mant * 10 ^ digitsVal eds)
    | _ => none

/-- The Python builtin `float(value)` on an already-stripped string: the parsed
rational, or a raised `ValueError`. -/
def pyFloat (s : String) : Except String ℚ :=
  let signed := splitSign s.toList
  match pyFloatCore signed.2 with
  | some q => .ok (if signed.1 then -q else q)
  | none => .error "could not convert string to float"

mutual

/-- `safe_float` (`app/services/extraction.py`, lines 399-417).  The result is
`Except`: a `.error` would model an exception escaping `safe_float`, and the
`try/except` around `float(value)` is the match on `pyFloat`. -/
def safe_float : PyVal → Except String (Option ℚ)
  | .pynull => .ok none
  | .pyint n => .ok (some (n : ℚ))
  | .pyfloat q => .ok (some q)
  | .pystr s =>
    match pyFloat (stripCurrency s) with
    | .ok q => .ok (some q)
    | .error _ => .ok none
  | .pydict entries => safe_float_dict entries
  | .pyother => .ok none

/-- The dict case of `safe_float`: look for the first `'amount'` binding and
recurse on it; without one the result is `None`. -/
def safe_float_dict : List (String × PyVal) → Except String (Option ℚ)
  | [] => .ok none
  | (k, v) :: rest => if k = "amount" then safe_float v else safe_float_dict rest

end

/-!
Concrete records used by the scenario theorems, witnesses and
counterexamples below.
-/

/-- Scenario A of the spec: subtotal 100, discount 10, tax 9, total 99. -/
def scenarioA : InvoiceData :=
  { subtotal := some 100, discount_amount := some 10, tax := some 9, total_amount := some 99 }

/-- Scenario B of the spec: as scenario A but total 105. -/
def scenarioB : InvoiceData := { scenarioA with total_amount := some 105 }

/-- A record whose stated grand total exceeds the computed one:
subtotal 100, no discount, no tax, total 105. -/
def overTotal : InvoiceData := { subtotal := some 100, total_amount := some 105 }

/-- A record carrying a present-but-zero CGST amount and no extracted tax. -/
def zeroCgst : InvoiceData := { cgst_amount := some 0 }

/-- A line item with a mismatched amount (3 × 10.00 stated as 25.00). -/
def mismatchedItem : LineItem := { quantity := some 3, unit_price := some 10, amount := some 25 }

/-- A fully-populated consistent record used by witnesses. -/
def okRecord : InvoiceData :=
  { vendor_name := some "ACME", invoice_number := some "INV-1", subtotal := some 100,
    tax := some 5, total_amount := some 105 }

/-- A record with CGST and SGST components of 9.00 each and no extracted tax. -/
def cgstPair : InvoiceData := { cgst_amount := some 9, sgst_amount := some 9 }

/-- A duplicate-lookup collaborator that reports record 42 for every number. -/
def lookupFound42 : String → LookupResult := fun _ => .found 42

/-- A duplicate-lookup collaborator whose query always raises. -/
def lookupRaises : String → LookupResult := fun _ => .raised

/-!
Substring infrastructure: building occurrences of `strContains`.
-/

theorem hasPrefixList_append (pat rest : List Char) :
    hasPrefixList pat (pat ++ rest) = true := by
  induction pat with
  | nil => rfl
  | cons a pa ih => simp [hasPrefixList, ih]

theorem hasSubList_append (pre pat tail : List Char) :
    hasSubList pat (pre ++ (pat ++ tail)) = true := by
  induction pre with
  | nil =>
    cases pat with
    | nil => cases tail with
      | nil => rfl
      | cons c t => simp [hasSubList, hasPrefixList]
    | cons p ps =>
      simp only [hasSubList, List.cons_append, Bool.or_eq_true]
      exact Or.inl (by simp [hasPrefixList, hasPrefixList_append])
  | cons c pr ih => simp [hasSubList, ih]

theorem strContains_of_parts (s a pat b : String) (h : s = a ++ (pat ++ b)) :
    strContains s pat = true := by
  subst h
  show hasSubList pat.toList (a ++ (pat ++ b)).toList = true
  have : (a ++ (pat ++ b)).toList = a.toList ++ (pat.toList ++ b.toList) := by
    simp [String.toList, String.data_append]
  rw [this]
  exact hasSubList_append _ _ _

/-!
Shape lemmas: each correction section updates exactly one field of the record.
-/

theorem fixLineItems_def (d : InvoiceData) :
    fixLineItems d = { d with line_items := d.line_items.map fixLineItem } := rfl

theorem fixSubtotal_shape (d : InvoiceData) :
    ∃ v, fixSubtotal d = { d with subtotal := v } := by
  unfold fixSubtotal
  split
  · exact ⟨d.subtotal, rfl⟩
  · cases hs : d.subtotal <;> simp only
    · exact ⟨_, rfl⟩
    · split
      · exact ⟨_, rfl⟩
      · exact ⟨d.subtotal, rfl⟩

theorem fixDiscount_shape (d : InvoiceData) :
    ∃ v, fixDiscount d = { d with discount_amount := v } := by
  unfold fixDiscount
  split
  · cases ha : d.discount_amount <;> simp only
    · exact ⟨_, rfl⟩
    · split
      · exact ⟨_, rfl⟩
      · exact ⟨d.discount_amount, rfl⟩
  · exact ⟨d.discount_amount, rfl⟩

theorem fixTax_shape (d : InvoiceData) : ∃ v, fixTax d = { d with tax := v } := by
  unfold fixTax
  split
  · cases ht : d.tax <;> simp only
    · split
      · exact ⟨_, rfl⟩
      · exact ⟨d.tax, rfl⟩
    · split
      · exact ⟨_, rfl⟩
      · exact ⟨d.tax, rfl⟩
  · exact ⟨d.tax, rfl⟩

theorem fixTotal_shape (d : InvoiceData) :
    ∃ v, fixTotal d = { d with total_amount := v } := by
  unfold fixTotal
  split
  · cases ht : d.total_amount <;> simp only
    · exact ⟨_, rfl⟩
    · split
      · exact ⟨_, rfl⟩
      · exact ⟨d.total_amount, rfl⟩
  · exact ⟨d.total_amount, rfl⟩

/-!
Behaviour of the per-item correction.
-/

theorem fixLineItem_product_name (it : LineItem) :
    (fixLineItem it).product_name = it.product_name := by
  obtain ⟨pn, oq, op, oa⟩ := it
  cases oq <;> cases op <;> cases oa <;> simp only [fixLineItem] <;>
    first
    | rfl
    | (split <;> rfl)

theorem fixLineItem_quantity (it : LineItem) :
    (fixLineItem it).quantity = it.quantity := by
  obtain ⟨pn, oq, op, oa⟩ := it
  cases oq <;> cases op <;> cases oa <;> simp only [fixLineItem] <;>
    first
    | rfl
    | (split <;> rfl)

theorem fixLineItem_unit_price (it : LineItem) :
    (fixLineItem it).unit_price = it.unit_price := by
  obtain ⟨pn, oq, op, oa⟩ := it
  cases oq <;> cases op <;> cases oa <;> simp only [fixLineItem] <;>
    first
    | rfl
    | (split <;> rfl)

theorem fixLineItem_of_missing (it : LineItem)
    (h : it.quantity = none ∨ it.unit_price = none) : fixLineItem it = it := by
  obtain ⟨pn, oq, op, oa⟩ := it
  simp only at h
  rcases h with h | h
  · subst h; cases op <;> simp [fixLineItem]
  · subst h; cases oq <;> simp [fixLineItem]

theorem fixLineItem_of_absent (it : LineItem) (q p : ℚ)
    (hq : it.quantity = some q) (hp : it.unit_price = some p) (ha : it.amount = none) :
    fixLineItem it = { it with amount := some (round2 (q * p)) } := by
  unfold fixLineItem
  rw [hq, hp, ha]

theorem fixLineItem_of_far (it : LineItem) (q p a : ℚ)
    (hq : it.quantity = some q) (hp : it.unit_price = some p) (ha : it.amount = some a)
    (h : abs (round2 (q * p) - a) > 0.01) :
    fixLineItem it = { it with amount := some (round2 (q * p)) } := by
  unfold fixLineItem
  rw [hq, hp, ha]
  simp only [h, if_true]

theorem fixLineItem_of_close (it : LineItem) (q p a : ℚ)
    (hq : it.quantity = some q) (hp : it.unit_price = some p) (ha : it.amount = some a)
    (h : ¬ abs (round2 (q * p) - a) > 0.01) : fixLineItem it = it := by
  unfold fixLineItem
  rw [hq, hp, ha]
  simp only [h, if_false]

theorem fixLineItem_idem (it : LineItem) : fixLineItem (fixLineItem it) = fixLineItem it := by
  cases hq : it.quantity with
  | none => rw [fixLineItem_of_missing it (Or.inl hq), fixLineItem_of_missing it (Or.inl hq)]
  | some q =>
    cases hp : it.unit_price with
    | none => rw [fixLineItem_of_missing it (Or.inr hp), fixLineItem_of_missing it (Or.inr hp)]
    | some p =>
      have hq2 : (fixLineItem it).quantity = some q := by rw [fixLineItem_quantity, hq]
      have hp2 : (fixLineItem it).unit_price = some p := by rw [fixLineItem_unit_price, hp]
      have key : (fixLineItem it).amount = some (round2 (q * p)) ∨
          ∃ a, (fixLineItem it).amount = some a ∧ ¬ abs (round2 (q * p) - a) > 0.01 := by
        cases ha : it.amount with
        | none => rw [fixLineItem_of_absent it q p hq hp ha]; exact Or.inl rfl
        | some a =>
          by_cases h : abs (round2 (q * p) - a) > 0.01
          · rw [fixLineItem_of_far it q p a hq hp ha h]; exact Or.inl rfl
          · rw [fixLineItem_of_close it q p a hq hp ha h]; exact Or.inr ⟨a, ha, h⟩
      rcases key with h | ⟨a, ha2, h⟩
      · exact fixLineItem_of_close (fixLineItem it) q p (round2 (q * p)) hq2 hp2 h
          (by rw [sub_self, abs_zero]; norm_num)
      · exact fixLineItem_of_close (fixLineItem it) q p a hq2 hp2 ha2 h

/-!
Frame facts: projections the correction sections leave unchanged.
-/

theorem fixSubtotal_line_items (d : InvoiceData) : (fixSubtotal d).line_items = d.line_items := by
  obtain ⟨v, h⟩ := fixSubtotal_shape d
  rw [h]

theorem fixSubtotal_discount_percentage (d : InvoiceData) : (fixSubtotal d).discount_percentage = d.discount_percentage := by
  obtain ⟨v, h⟩ := fixSubtotal_shape d
  rw [h]

theorem fixSubtotal_discount_amount (d : InvoiceData) : (fixSubtotal d).discount_amount = d.discount_amount := by
  obtain ⟨v, h⟩ := fixSubtotal_shape d
  rw [h]

theorem fixSubtotal_cgst_amount (d : InvoiceData) : (fixSubtotal d).cgst_amount = d.cgst_amount := by
  obtain ⟨v, h⟩ := fixSubtotal_shape d
  rw [h]

theorem fixSubtotal_sgst_amount (d : InvoiceData) : (fixSubtotal d).sgst_amount = d.sgst_amount := by
  obtain ⟨v, h⟩ := fixSubtotal_shape d
  rw [h]

theorem fixSubtotal_tax (d : InvoiceData) : (fixSubtotal d).tax = d.tax := by
  obtain ⟨v, h⟩ := fixSubtotal_shape d
  rw [h]

theorem fixSubtotal_total_amount (d : InvoiceData) : (fixSubtotal d).total_amount = d.total_amount := by
  obtain ⟨v, h⟩ := fixSubtotal_shape d
  rw [h]

theorem fixDiscount_line_items (d : InvoiceData) : (fixDiscount d).line_items = d.line_items := by
  obtain ⟨v, h⟩ := fixDiscount_shape d
  rw [h]

theorem fixDiscount_subtotal (d : InvoiceData) : (fixDiscount d).subtotal = d.subtotal := by
  obtain ⟨v, h⟩ := fixDiscount_shape d
  rw [h]

theorem fixDiscount_discount_percentage (d : InvoiceData) : (fixDiscount d).discount_percentage = d.discount_percentage := by
  obtain ⟨v, h⟩ := fixDiscount_shape d
  rw [h]

theorem fixDiscount_cgst_amount (d : InvoiceData) : (fixDiscount d).cgst_amount = d.cgst_amount := by
  obtain ⟨v, h⟩ := fixDiscount_shape d
  rw [h]

theorem fixDiscount_sgst_amount (d : InvoiceData) : (fixDiscount d).sgst_amount = d.sgst_amount := by
  obtain ⟨v, h⟩ := fixDiscount_shape d
  rw [h]

theorem fixDiscount_tax (d : InvoiceData) : (fixDiscount d).tax = d.tax := by
  obtain ⟨v, h⟩ := fixDiscount_shape d
  rw [h]

theorem fixDiscount_total_amount (d : InvoiceData) : (fixDiscount d).total_amount = d.total_amount := by
  obtain ⟨v, h⟩ := fixDiscount_shape d
  rw [h]

theorem fixTax_line_items (d : InvoiceData) : (fixTax d).line_items = d.line_items := by
  obtain ⟨v, h⟩ := fixTax_shape d
  rw [h]

theorem fixTax_subtotal (d : InvoiceData) : (fixTax d).subtotal = d.subtotal := by
  obtain ⟨v, h⟩ := fixTax_shape d
  rw [h]

theorem fixTax_discount_percentage (d : InvoiceData) : (fixTax d).discount_percentage = d.discount_percentage := by
  obtain ⟨v, h⟩ := fixTax_shape d
  rw [h]

theorem fixTax_discount_amount (d : InvoiceData) : (fixTax d).discount_amount = d.discount_amount := by
  obtain ⟨v, h⟩ := fixTax_shape d
  rw [h]

theorem fixTax_cgst_amount (d : InvoiceData) : (fixTax d).cgst_amount = d.cgst_amount := by
  obtain ⟨v, h⟩ := fixTax_shape d
  rw [h]

theorem fixTax_sgst_amount (d : InvoiceData) : (fixTax d).sgst_amount = d.sgst_amount := by
  obtain ⟨v, h⟩ := fixTax_shape d
  rw [h]

theorem fixTax_total_amount (d : InvoiceData) : (fixTax d).total_amount = d.total_amount := by
  obtain ⟨v, h⟩ := fixTax_shape d
  rw [h]

theorem fixTotal_line_items (d : InvoiceData) : (fixTotal d).line_items = d.line_items := by
  obtain ⟨v, h⟩ := fixTotal_shape d
  rw [h]

theorem fixTotal_subtotal (d : InvoiceData) : (fixTotal d).subtotal = d.subtotal := by
  obtain ⟨v, h⟩ := fixTotal_shape d
  rw [h]

theorem fixTotal_discount_percentage (d : InvoiceData) : (fixTotal d).discount_percentage = d.discount_percentage := by
  obtain ⟨v, h⟩ := fixTotal_shape d
  rw [h]

theorem fixTotal_discount_amount (d : InvoiceData) : (fixTotal d).discount_amount = d.discount_amount := by
  obtain ⟨v, h⟩ := fixTotal_shape d
  rw [h]

theorem fixTotal_cgst_amount (d : InvoiceData) : (fixTotal d).cgst_amount = d.cgst_amount := by
  obtain ⟨v, h⟩ := fixTotal_shape d
  rw [h]

theorem fixTotal_sgst_amount (d : InvoiceData) : (fixTotal d).sgst_amount = d.sgst_amount := by
  obtain ⟨v, h⟩ := fixTotal_shape d
  rw [h]

theorem fixTotal_tax (d : InvoiceData) : (fixTotal d).tax = d.tax := by
  obtain ⟨v, h⟩ := fixTotal_shape d
  rw [h]

/-!
Identity and stabilisation lemmas: each correction section is the identity on
records already satisfying its tolerance condition, and establishes that
condition on its output.
-/

theorem fixSubtotal_id (d : InvoiceData)
    (h : d.line_items.isEmpty = true ∨
      ∃ x, d.subtotal = some x ∧ abs (round2 (sumAmounts d.line_items) - x) ≤ 0.5) :
    fixSubtotal d = d := by
  unfold fixSubtotal
  split
  · rfl
  next he =>
    rcases h with h | ⟨x, hx, hle⟩
    · exact absurd h he
    · rw [hx]
      dsimp only
      rw [if_neg (not_lt.mpr hle)]

theorem fixSubtotal_stable (d : InvoiceData) :
    (fixSubtotal d).line_items.isEmpty = true ∨
      ∃ x, (fixSubtotal d).subtotal = some x ∧
        abs (round2 (sumAmounts (fixSubtotal d).line_items) - x) ≤ 0.5 := by
  rw [fixSubtotal_line_items]
  by_cases he : d.line_items.isEmpty = true
  · left; exact he
  · right
    unfold fixSubtotal
    rw [if_neg he]
    cases hs : d.subtotal with
    | none =>
      exact ⟨round2 (sumAmounts d.line_items), rfl, by rw [sub_self, abs_zero]; norm_num⟩
    | some s =>
      dsimp only
      by_cases hfar : abs (round2 (sumAmounts d.line_items) - s) > 0.5
      · rw [if_pos hfar]
        exact ⟨round2 (sumAmounts d.line_items), rfl, by rw [sub_self, abs_zero]; norm_num⟩
      · rw [if_neg hfar]
        exact ⟨s, hs, not_lt.mp hfar⟩

theorem fixDiscount_id (d : InvoiceData)
    (h : d.discount_percentage = none ∨ d.subtotal = none ∨
      ∃ pct s a, d.discount_percentage = some pct ∧ d.subtotal = some s ∧
        d.discount_amount = some a ∧ abs (round2 (s * pct / 100) - a) ≤ 0.5) :
    fixDiscount d = d := by
  unfold fixDiscount
  cases hpct : d.discount_percentage with
  | none => rfl
  | some pct =>
    cases hsub : d.subtotal with
    | none => rfl
    | some s =>
      dsimp only
      rcases h with h | h | ⟨pct2, s2, a, hpct2, hsub2, ha, hle⟩
      · rw [hpct] at h; cases h
      · rw [hsub] at h; cases h
      · rw [hpct] at hpct2; rw [hsub] at hsub2
        cases hpct2; cases hsub2
        rw [ha]
        dsimp only
        rw [if_neg (not_lt.mpr hle)]

theorem fixDiscount_stable (d : InvoiceData) :
    (fixDiscount d).discount_percentage = none ∨ (fixDiscount d).subtotal = none ∨
      ∃ pct s a, (fixDiscount d).discount_percentage = some pct ∧
        (fixDiscount d).subtotal = some s ∧ (fixDiscount d).discount_amount = some a ∧
        abs (round2 (s * pct / 100) - a) ≤ 0.5 := by
  rw [fixDiscount_discount_percentage, fixDiscount_subtotal]
  cases hpct : d.discount_percentage with
  | none => exact Or.inl rfl
  | some pct =>
    cases hsub : d.subtotal with
    | none => exact Or.inr (Or.inl rfl)
    | some s =>
      refine Or.inr (Or.inr ⟨pct, s, ?_⟩)
      unfold fixDiscount
      rw [hpct, hsub]
      cases ha : d.discount_amount with
      | none =>
        exact ⟨round2 (s * pct / 100), rfl, rfl, rfl, by rw [sub_self, abs_zero]; norm_num⟩
      | some a =>
        dsimp only
        by_cases hfar : abs (round2 (s * pct / 100) - a) > 0.5
        · rw [if_pos hfar]
          exact ⟨round2 (s * pct / 100), rfl, rfl, rfl, by rw [sub_self, abs_zero]; norm_num⟩
        · rw [if_neg hfar]
          exact ⟨a, rfl, rfl, ha, not_lt.mp hfar⟩

theorem fixTax_id (d : InvoiceData)
    (h : (d.cgst_amount = none ∧ d.sgst_amount = none) ∨
      (∃ t, d.tax = some t ∧
        ¬(abs (round2 (d.cgst_amount.getD 0 + d.sgst_amount.getD 0) - t) > 0.5 ∧
          round2 (d.cgst_amount.getD 0 + d.sgst_amount.getD 0) > 0)) ∨
      (d.tax = none ∧ ¬ round2 (d.cgst_amount.getD 0 + d.sgst_amount.getD 0) > 0)) :
    fixTax d = d := by
  unfold fixTax
  split
  next hsome =>
    rcases h with ⟨hc, hs⟩ | ⟨t, ht, hcond⟩ | ⟨ht, hcond⟩
    · rw [hc, hs] at hsome
      simp [Option.isSome] at hsome
    · rw [ht]
      dsimp only
      rw [if_neg hcond]
    · rw [ht]
      dsimp only
      rw [if_neg hcond]
  · rfl

theorem fixTax_stable (d : InvoiceData) :
    ((fixTax d).cgst_amount = none ∧ (fixTax d).sgst_amount = none) ∨
      (∃ t, (fixTax d).tax = some t ∧
        ¬(abs (round2 ((fixTax d).cgst_amount.getD 0 + (fixTax d).sgst_amount.getD 0) - t) > 0.5 ∧
          round2 ((fixTax d).cgst_amount.getD 0 + (fixTax d).sgst_amount.getD 0) > 0)) ∨
      ((fixTax d).tax = none ∧
        ¬ round2 ((fixTax d).cgst_amount.getD 0 + (fixTax d).sgst_amount.getD 0) > 0) := by
  rw [fixTax_cgst_amount, fixTax_sgst_amount]
  by_cases hp : (d.cgst_amount.isSome || d.sgst_amount.isSome) = true
  · unfold fixTax
    rw [if_pos hp]
    cases ht : d.tax with
    | some t =>
      dsimp only
      by_cases hcond : abs (round2 (d.cgst_amount.getD 0 + d.sgst_amount.getD 0) - t) > 0.5 ∧
          round2 (d.cgst_amount.getD 0 + d.sgst_amount.getD 0) > 0
      · rw [if_pos hcond]
        refine Or.inr (Or.inl ⟨round2 (d.cgst_amount.getD 0 + d.sgst_amount.getD 0), rfl, ?_⟩)
        intro hc
        rw [sub_self, abs_zero] at hc
        exact absurd hc.1 (by norm_num)
      · rw [if_neg hcond]
        exact Or.inr (Or.inl ⟨t, ht, hcond⟩)
    | none =>
      dsimp only
      by_cases hpos : round2 (d.cgst_amount.getD 0 + d.sgst_amount.getD 0) > 0
      · rw [if_pos hpos]
        refine Or.inr (Or.inl ⟨round2 (d.cgst_amount.getD 0 + d.sgst_amount.getD 0), rfl, ?_⟩)
        intro hc
        rw [sub_self, abs_zero] at hc
        exact absurd hc.1 (by norm_num)
      · rw [if_neg hpos]
        exact Or.inr (Or.inr ⟨ht, hpos⟩)
  · unfold fixTax
    rw [if_neg hp]
    have h1 : d.cgst_amount = none := by
      cases hc : d.cgst_amount with
      | none => rfl
      | some x => rw [hc] at hp; simp at hp
    have h2 : d.sgst_amount = none := by
      cases hs : d.sgst_amount with
      | none => rfl
      | some x => rw [hs] at hp; simp at hp
    exact Or.inl ⟨h1, h2⟩

theorem fixTotal_id (d : InvoiceData)
    (h : d.subtotal = none ∨
      ∃ s t, d.subtotal = some s ∧ d.total_amount = some t ∧
        abs (round2 (s - d.discount_amount.getD 0 + d.tax.getD 0) - t) ≤ 0.5) :
    fixTotal d = d := by
  unfold fixTotal
  cases hsub : d.subtotal with
  | none => rfl
  | some s =>
    rcases h with h | ⟨s2, t, hs2, ht, hle⟩
    · rw [hsub] at h; cases h
    · rw [hsub] at hs2; cases hs2
      rw [ht]
      dsimp only
      rw [if_neg (not_lt.mpr hle)]

theorem fixTotal_stable (d : InvoiceData) :
    (fixTotal d).subtotal = none ∨
      ∃ s t, (fixTotal d).subtotal = some s ∧ (fixTotal d).total_amount = some t ∧
        abs (round2 (s - (fixTotal d).discount_amount.getD 0 + (fixTotal d).tax.getD 0) - t)
          ≤ 0.5 := by
  rw [fixTotal_subtotal, fixTotal_discount_amount, fixTotal_tax]
  cases hsub : d.subtotal with
  | none => exact Or.inl rfl
  | some s =>
    refine Or.inr ⟨s, ?_⟩
    unfold fixTotal
    rw [hsub]
    cases ht : d.total_amount with
    | none =>
      exact ⟨round2 (s - d.discount_amount.getD 0 + d.tax.getD 0), rfl, rfl,
        by rw [sub_self, abs_zero]; norm_num⟩
    | some t =>
      dsimp only
      by_cases hfar : abs (round2 (s - d.discount_amount.getD 0 + d.tax.getD 0) - t) > 0.5
      · rw [if_pos hfar]
        exact ⟨round2 (s - d.discount_amount.getD 0 + d.tax.getD 0), rfl, rfl,
          by rw [sub_self, abs_zero]; norm_num⟩
      · rw [if_neg hfar]
        exact ⟨t, rfl, ht, not_lt.mp hfar⟩

theorem map_fixLineItem_idem (l : List LineItem) :
    (l.map fixLineItem).map fixLineItem = l.map fixLineItem := by
  rw [List.map_map]
  exact List.map_congr_left (fun a _ => fixLineItem_idem a)

theorem apply_math_corrections_shape (d : InvoiceData) :
    ∃ s da t ta, apply_math_corrections d =
      { d with line_items := d.line_items.map fixLineItem, subtotal := s,
               discount_amount := da, tax := t, total_amount := ta } := by
  obtain ⟨v2, h2⟩ := fixSubtotal_shape (fixLineItems d)
  obtain ⟨v3, h3⟩ := fixDiscount_shape (fixSubtotal (fixLineItems d))
  obtain ⟨v4, h4⟩ := fixTax_shape (fixDiscount (fixSubtotal (fixLineItems d)))
  obtain ⟨v5, h5⟩ := fixTotal_shape (fixTax (fixDiscount (fixSubtotal (fixLineItems d))))
  refine ⟨v2, v3, v4, v5, ?_⟩
  show fixTotal (fixTax (fixDiscount (fixSubtotal (fixLineItems d)))) = _
  rw [h5, h4, h3, h2]
  rfl

theorem apply_math_corrections_line_items (d : InvoiceData) :
    (apply_math_corrections d).line_items = d.line_items.map fixLineItem := by
  obtain ⟨s, da, t, ta, h⟩ := apply_math_corrections_shape d
  rw [h]

/-- C3: applying the math corrector twice gives the same record as applying it
once: `correct(correct(r)) == correct(r)` for every invoice record, where the
corrector is the five-step correction over line-item amounts, subtotal,
discount amount, tax and total amount. -/
theorem apply_math_corrections_idempotent (d : InvoiceData) :
    apply_math_corrections (apply_math_corrections d) = apply_math_corrections d := by
  set d1 := fixLineItems d with hd1
  set d2 := fixSubtotal d1 with hd2
  set d3 := fixDiscount d2 with hd3
  set d4 := fixTax d3 with hd4
  set c := apply_math_corrections d with hcdef
  have hc : c = fixTotal d4 := rfl
  have hli : c.line_items = d1.line_items := by
    rw [hc, fixTotal_line_items, hd4, fixTax_line_items, hd3, fixDiscount_line_items, hd2,
      fixSubtotal_line_items]
  have h1 : fixLineItems c = c := by
    have hmap : c.line_items.map fixLineItem = c.line_items := by
      rw [hli, hd1]
      show ((d.line_items.map fixLineItem).map fixLineItem) = d.line_items.map fixLineItem
      exact map_fixLineItem_idem d.line_items
    rw [fixLineItems_def, hmap]
  have hsub : c.subtotal = d2.subtotal := by
    rw [hc, fixTotal_subtotal, hd4, fixTax_subtotal, hd3, fixDiscount_subtotal]
  have h2 : fixSubtotal c = c := by
    apply fixSubtotal_id
    have hst := fixSubtotal_stable d1
    rw [fixSubtotal_line_items] at hst
    rcases hst with h | ⟨x, hx, hle⟩
    · left; rw [hli]; exact h
    · right
      refine ⟨x, ?_, ?_⟩
      · rw [hsub, hd2]; exact hx
      · rw [hli]; exact hle
  have h3 : fixDiscount c = c := by
    apply fixDiscount_id
    have hst := fixDiscount_stable d2
    have e1 : c.discount_percentage = d3.discount_percentage := by
      rw [hc, fixTotal_discount_percentage, hd4, fixTax_discount_percentage]
    have e2 : c.subtotal = d3.subtotal := by
      rw [hc, fixTotal_subtotal, hd4, fixTax_subtotal]
    have e3 : c.discount_amount = d3.discount_amount := by
      rw [hc, fixTotal_discount_amount, hd4, fixTax_discount_amount]
    rcases hst with h | h | ⟨pct, s, a, hpct, hs, ha, hle⟩
    · left; rw [e1, hd3]; exact h
    · right; left; rw [e2, hd3]; exact h
    · right; right
      exact ⟨pct, s, a, by rw [e1, hd3]; exact hpct, by rw [e2, hd3]; exact hs,
        by rw [e3, hd3]; exact ha, hle⟩
  have h4 : fixTax c = c := by
    apply fixTax_id
    have hst := fixTax_stable d3
    have e1 : c.cgst_amount = d4.cgst_amount := by rw [hc, fixTotal_cgst_amount]
    have e2 : c.sgst_amount = d4.sgst_amount := by rw [hc, fixTotal_sgst_amount]
    have e3 : c.tax = d4.tax := by rw [hc, fixTotal_tax]
    rw [e1, e2, e3, hd4]
    exact hst
  have h5 : fixTotal c = c := by
    apply fixTotal_id
    have hst := fixTotal_stable d4
    have e1 : c.subtotal = (fixTotal d4).subtotal := by rw [hc]
    have e2 : c.total_amount = (fixTotal d4).total_amount := by rw [hc]
    have e3 : c.discount_amount = (fixTotal d4).discount_amount := by rw [hc]
    have e4 : c.tax = (fixTotal d4).tax := by rw [hc]
    rw [e1, e2, e3, e4]
    exact hst
  show fixTotal (fixTax (fixDiscount (fixSubtotal (fixLineItems c)))) = c
  rw [h1, h2, h3, h4, h5]

/-!
Severity facts for the validator checks.
-/

theorem check_required_fields_severity (d : InvoiceData) :
    ∀ e ∈ check_required_fields d, e.severity = "error" := by
  intro e he
  unfold check_required_fields at he
  rcases List.mem_append.mp he with h | h <;> (split at h <;> simp_all)

theorem check_amount_integrity_severity (d : InvoiceData) :
    ∀ e ∈ check_amount_integrity d, e.severity = "error" := by
  intro e he
  unfold check_amount_integrity at he
  cases hs : d.subtotal <;> cases ht : d.total_amount <;> cases hx : d.tax <;>
    rw [hs, ht, hx] at he <;>
    simp only [List.mem_append] at he <;>
    rcases he with (((h | h) | h) | h) | h <;>
    first
    | (split at h <;> simp_all)
    | simp_all

theorem check_duplicate_invoice_severity (d : InvoiceData) (lookup : String → LookupResult) :
    ∀ e ∈ check_duplicate_invoice d lookup, e.severity = "error" := by
  intro e he
  unfold check_duplicate_invoice at he
  split at he
  · simp_all
  · split at he <;> simp_all

theorem check_mathematical_consistency_severity (d : InvoiceData) :
    ∀ e ∈ check_mathematical_consistency d, e.severity = "error" := by
  intro e he
  unfold check_mathematical_consistency at he
  split at he
  · dsimp only at he
    split at he <;> simp_all
  · simp_all

theorem checkLineItem_severity (idx : Nat) (it : LineItem) :
    ∀ e ∈ checkLineItem idx it, e.severity = "error" := by
  intro e he
  unfold checkLineItem at he
  split at he
  · split at he <;> simp_all
  · simp_all

theorem check_line_item_math_severity (d : InvoiceData) :
    ∀ e ∈ check_line_item_math d, e.severity = "error" := by
  intro e he
  unfold check_line_item_math at he
  rw [List.mem_flatMap] at he
  obtain ⟨p, _, hp⟩ := he
  exact checkLineItem_severity p.1 p.2 e hp

theorem check_subtotal_consistency_severity (d : InvoiceData) :
    ∀ e ∈ check_subtotal_consistency d, e.severity = "warning" := by
  intro e he
  unfold check_subtotal_consistency at he
  split at he
  · simp_all
  · split at he
    · simp_all
    · split at he
      · simp_all
      · dsimp only at he
        split at he <;> simp_all

theorem check_discount_consistency_severity (d : InvoiceData) :
    ∀ e ∈ check_discount_consistency d, e.severity = "warning" := by
  intro e he
  unfold check_discount_consistency at he
  split at he
  · dsimp only at he
    split at he <;> simp_all
  · simp_all

theorem check_data_quality_severity (d : InvoiceData) :
    ∀ e ∈ check_data_quality d, e.severity = "warning" := by
  intro e he
  unfold check_data_quality at he
  cases ht : d.total_amount <;>
    rw [ht] at he <;>
    simp only [List.mem_append] at he <;>
    rcases he with (((h | h) | h) | h) | h <;>
    first
    | (split at h <;> simp_all)
    | simp_all

theorem validate_errors_severity (d : InvoiceData) (db : Option (String → LookupResult)) :
    ∀ e ∈ (validate d db).errors, e.severity = "error" := by
  unfold validate
  dsimp only
  refine List.forall_mem_append.mpr ⟨?_, ?_⟩
  · refine List.forall_mem_append.mpr ⟨?_, ?_⟩
    · refine List.forall_mem_append.mpr ⟨?_, ?_⟩
      · refine List.forall_mem_append.mpr
          ⟨check_required_fields_severity d, check_amount_integrity_severity d⟩
      · exact check_mathematical_consistency_severity d
    · exact check_line_item_math_severity d
  · cases db with
    | none => intro e he; simp at he
    | some lookup => exact check_duplicate_invoice_severity d lookup

theorem validate_warnings_severity (d : InvoiceData) (db : Option (String → LookupResult)) :
    ∀ e ∈ (validate d db).warnings, e.severity = "warning" := by
  unfold validate
  dsimp only
  refine List.forall_mem_append.mpr ⟨?_, ?_⟩
  · refine List.forall_mem_append.mpr
      ⟨check_subtotal_consistency_severity d, check_discount_consistency_severity d⟩
  · exact check_data_quality_severity d

/-!
The tax output of the corrector as a function of the record's tax components.
-/

theorem fixLineItems_cgst_amount (d : InvoiceData) :
    (fixLineItems d).cgst_amount = d.cgst_amount := rfl

theorem fixLineItems_sgst_amount (d : InvoiceData) :
    (fixLineItems d).sgst_amount = d.sgst_amount := rfl

theorem fixLineItems_tax (d : InvoiceData) : (fixLineItems d).tax = d.tax := rfl

theorem fixTax_tax_eq (d : InvoiceData) :
    (fixTax d).tax =
      if d.cgst_amount.isSome || d.sgst_amount.isSome then
        match d.tax with
        | some t =>
          if abs (round2 (d.cgst_amount.getD 0 + d.sgst_amount.getD 0) - t) > 0.5 ∧
              round2 (d.cgst_amount.getD 0 + d.sgst_amount.getD 0) > 0 then
            some (round2 (d.cgst_amount.getD 0 + d.sgst_amount.getD 0))
          else some t
        | none =>
          if round2 (d.cgst_amount.getD 0 + d.sgst_amount.getD 0) > 0 then
            some (round2 (d.cgst_amount.getD 0 + d.sgst_amount.getD 0))
          else none
      else d.tax := by
  unfold fixTax
  split
  next hp =>
    dsimp only
    cases ht : d.tax with
    | some t =>
      by_cases hc : abs (round2 (d.cgst_amount.getD 0 + d.sgst_amount.getD 0) - t) > 0.5 ∧
          round2 (d.cgst_amount.getD 0 + d.sgst_amount.getD 0) > 0
      · simp only [if_pos hc]
      · simp only [if_neg hc]
        exact ht
    | none =>
      by_cases hc : round2 (d.cgst_amount.getD 0 + d.sgst_amount.getD 0) > 0
      · simp only [if_pos hc]
      · simp only [if_neg hc]
        exact ht
  next hp => rfl

theorem corrections_tax_eq_fixTax_tax (d : InvoiceData) :
    (apply_math_corrections d).tax = (fixTax d).tax := by
  have h0 : (apply_math_corrections d).tax =
      (fixTax (fixDiscount (fixSubtotal (fixLineItems d)))).tax := by
    show (fixTotal (fixTax (fixDiscount (fixSubtotal (fixLineItems d))))).tax = _
    rw [fixTotal_tax]
  have e1 : (fixDiscount (fixSubtotal (fixLineItems d))).cgst_amount = d.cgst_amount := by
    rw [fixDiscount_cgst_amount, fixSubtotal_cgst_amount, fixLineItems_cgst_amount]
  have e2 : (fixDiscount (fixSubtotal (fixLineItems d))).sgst_amount = d.sgst_amount := by
    rw [fixDiscount_sgst_amount, fixSubtotal_sgst_amount, fixLineItems_sgst_amount]
  have e3 : (fixDiscount (fixSubtotal (fixLineItems d))).tax = d.tax := by
    rw [fixDiscount_tax, fixSubtotal_tax, fixLineItems_tax]
  rw [h0, fixTax_tax_eq, fixTax_tax_eq, e1, e2, e3]

/-- C1: for every invoice record and optional duplicate-lookup collaborator,
the validation result is valid exactly when its error list is empty —
equivalently, exactly when no finding of severity `"error"` was produced —
every produced error has severity `"error"`, no warning does, and the number
and content of warnings never affect validity. -/
theorem validate_is_valid_iff_no_errors (d : InvoiceData)
    (db : Option (String → LookupResult)) :
    ((validate d db).is_valid = true ↔ (validate d db).errors = []) ∧
    ((validate d db).errors.filter (fun f => f.severity == "error") =
      (validate d db).errors) ∧
    ((validate d db).warnings.filter (fun f => f.severity == "error") = []) ∧
    ((validate d db).is_valid = true ↔
      ((validate d db).errors ++ (validate d db).warnings).countP
        (fun f => f.severity == "error") = 0) := by
  have herr := validate_errors_severity d db
  have hwarn := validate_warnings_severity d db
  have hv : (validate d db).is_valid = ((validate d db).errors.length == 0) := rfl
  refine ⟨?_, ?_, ?_, ?_⟩
  · rw [hv]
    simp [List.length_eq_zero]
  · apply List.filter_eq_self.mpr
    intro a ha
    rw [herr a ha]
    decide
  · apply List.filter_eq_nil.mpr
    intro a ha
    rw [hwarn a ha]
    decide
  · rw [hv, List.countP_append]
    have h1 : (validate d db).errors.countP (fun f => f.severity == "error") =
        (validate d db).errors.length := by
      apply List.countP_eq_length.mpr
      intro a ha
      rw [herr a ha]
      decide
    have h2 : (validate d db).warnings.countP (fun f => f.severity == "error") = 0 := by
      apply List.countP_eq_zero.mpr
      intro a ha
      rw [hwarn a ha]
      decide
    rw [h1, h2]
    simp [List.length_eq_zero]

/-- C6: on subtotal 100.00, discount 10.00, tax 9.00 the grand-total check
passes with total 99.00 (zero findings), and with total 105.00 it produces
exactly one error finding on `total_amount` whose message contains `5.00`. -/
theorem grand_total_scenarios :
    check_mathematical_consistency scenarioA = [] ∧
    (check_mathematical_consistency scenarioB).length = 1 ∧
    (check_mathematical_consistency scenarioB).map (fun e => e.field) = ["total_amount"] ∧
    (check_mathematical_consistency scenarioB).map (fun e => e.severity) = ["error"] ∧
    (check_mathematical_consistency scenarioB).map
      (fun e => strContains e.message "5.00") = [true] := by
  refine ⟨by decide, by decide, by decide, by decide, by decide⟩

/-- C8: a freshly processed record's status resolves to `REVIEW_REQUIRED`
exactly when the validation result carries at least one error and to `PENDING`
otherwise, never directly to `APPROVED`; the approval action is blocked on
`REVIEW_REQUIRED`, approves from `PENDING`, and is idempotent on an
already-`APPROVED` record. -/
theorem status_resolution_and_approval_spec (vr : ValidationResult) :
    (resolve_status vr = "REVIEW_REQUIRED" ↔ vr.errors ≠ []) ∧
    (resolve_status vr = "PENDING" ↔ vr.errors = []) ∧
    resolve_status vr ≠ "APPROVED" ∧
    approve_invoice (some "REVIEW_REQUIRED") = .blocked ∧
    approve_invoice (some "PENDING") = .approved "APPROVED" ∧
    approve_invoice (some "APPROVED") = .approved "APPROVED" ∧
    approve_invoice none = .notFound := by
  unfold resolve_status
  by_cases h : vr.errors.length > 0
  · rw [if_pos h]
    have hne : vr.errors ≠ [] := by
      intro hnil
      rw [hnil] at h
      simp at h
    refine ⟨⟨fun _ => hne, fun _ => rfl⟩, ⟨fun hc => absurd hc (by decide), fun hc => absurd hc hne⟩,
      by decide, by decide, by decide, by decide, by decide⟩
  · rw [if_neg h]
    have hnil : vr.errors = [] := by
      cases he : vr.errors with
      | nil => rfl
      | cons a t => rw [he] at h; simp at h
    refine ⟨⟨fun hc => absurd hc (by decide), fun hc => absurd hnil hc⟩,
      ⟨fun _ => hnil, fun _ => rfl⟩, by decide, by decide, by decide, by decide, by decide⟩

mutual

theorem safe_float_never_raises (v : PyVal) : ∃ r, safe_float v = .ok r := by
  cases v with
  | pynull => exact ⟨none, rfl⟩
  | pyint n => exact ⟨some (n : ℚ), rfl⟩
  | pyfloat q => exact ⟨some q, rfl⟩
  | pystr s =>
    cases h : pyFloat (stripCurrency s) with
    | ok q => exact ⟨some q, by simp [safe_float, h]⟩
    | error e => exact ⟨none, by simp [safe_float, h]⟩
  | pydict entries =>
    obtain ⟨r, hr⟩ := safe_float_dict_never_raises entries
    exact ⟨r, by simpa [safe_float] using hr⟩
  | pyother => exact ⟨none, rfl⟩

theorem safe_float_dict_never_raises (l : List (String × PyVal)) :
    ∃ r, safe_float_dict l = .ok r := by
  cases l with
  | nil => exact ⟨none, rfl⟩
  | cons kv rest =>
    obtain ⟨k, v⟩ := kv
    by_cases hk : k = "amount"
    · obtain ⟨r, hr⟩ := safe_float_never_raises v
      exact ⟨r, by simpa [safe_float_dict, hk] using hr⟩
    · obtain ⟨r, hr⟩ := safe_float_dict_never_raises rest
      exact ⟨r, by simpa [safe_float_dict, hk] using hr⟩

end

/-- C9: the numeric coercion `safe_float` is total and never lets an exception
escape: for every Python value (null, int, float, a string possibly carrying
commas or the currency symbols ₹ $ € £, a dict with or without an `amount`
key, or anything else) it returns a float or `None`, and a string that does
not parse as a number after symbol/comma stripping yields `None` rather than
an exception. -/
theorem safe_float_total_spec :
    (∀ v : PyVal, ∃ r : Option ℚ, safe_float v = .ok r) ∧
    safe_float (.pystr "₹1,234.50") = .ok (some 1234.5) ∧
    safe_float (.pystr " $99 ") = .ok (some 99) ∧
    safe_float (.pystr "1.5e2") = .ok (some 150) ∧
    safe_float (.pystr "twelve") = .ok none ∧
    safe_float (.pystr "") = .ok none ∧
    safe_float (.pystr "12.30.1") = .ok none ∧
    safe_float (.pydict [("total", .pyint 5), ("amount", .pystr "€2.50")]) = .ok (some 2.5) ∧
    safe_float (.pydict [("total", .pyint 5)]) = .ok none ∧
    safe_float .pynull = .ok none ∧
    safe_float .pyother = .ok none ∧
    (∀ n : ℤ, safe_float (.pyint n) = .ok (some (n : ℚ))) ∧
    (∀ q : ℚ, safe_float (.pyfloat q) = .ok (some q)) :=
  ⟨safe_float_never_raises, by rfl, by rfl, by rfl, by rfl, by rfl, by rfl, by rfl, by rfl,
    by rfl, by rfl, fun n => rfl, fun q => rfl⟩

/-- C4: for a line item with quantity and unit price both present, the
corrector sets an absent amount to `round(quantity × unit_price, 2)`,
overwrites a present amount that differs from that rounded product by more
than 0.01, and leaves an amount within 0.01 untouched; the corrector applies
exactly this per-item fix to every line item. -/
theorem line_item_amount_correction_spec (it : LineItem) (q p : ℚ)
    (hq : it.quantity = some q) (hp : it.unit_price = some p) :
    (it.amount = none → fixLineItem it = { it with amount := some (round2 (q * p)) }) ∧
    (∀ a, it.amount = some a →
      (abs (round2 (q * p) - a) > 0.01 →
        fixLineItem it = { it with amount := some (round2 (q * p)) }) ∧
      (abs (round2 (q * p) - a) ≤ 0.01 → fixLineItem it = it)) ∧
    (∀ d : InvoiceData, (apply_math_corrections d).line_items = d.line_items.map fixLineItem) :=
  ⟨fun ha => fixLineItem_of_absent it q p hq hp ha,
   fun a ha =>
     ⟨fun h => fixLineItem_of_far it q p a hq hp ha h,
      fun h => fixLineItem_of_close it q p a hq hp ha (not_lt.mpr h)⟩,
   apply_math_corrections_line_items⟩

/-- Witness for C4 at the concrete item `{quantity := 3, unit_price := 10,
amount := 25}`: the distance exceeds the tolerance and the amount is
overwritten with the rounded product. -/
theorem line_item_amount_correction_spec_witness :
    abs (round2 ((3 : ℚ) * 10) - 25) > 0.01 ∧
    fixLineItem mismatchedItem = { mismatchedItem with amount := some (round2 ((3 : ℚ) * 10)) } :=
  ⟨by decide,
   ((line_item_amount_correction_spec mismatchedItem 3 10 rfl rfl).2.1 25 rfl).1 (by decide)⟩

/-- Counterexample to C7 as stated: `cgst_amount = 0.0` is a present CGST
component and `tax` is absent, yet the corrector leaves `tax` absent instead
of setting it to the candidate sum (the code requires the candidate to be
positive before filling an absent tax). -/
theorem absent_tax_zero_candidate_counterexample :
    zeroCgst.cgst_amount.isSome = true ∧ zeroCgst.tax = none ∧
    (apply_math_corrections zeroCgst).tax = none ∧
    (apply_math_corrections zeroCgst).tax ≠
      some (round2 (zeroCgst.cgst_amount.getD 0 + zeroCgst.sgst_amount.getD 0)) :=
  ⟨by decide, by decide, by decide, by decide⟩

/-- C7 (amended): when a CGST or SGST component is present, the corrector sums
the present components into a rounded candidate; an absent tax is set to the
candidate only when the candidate is positive (otherwise it stays absent); a
present tax is replaced when it differs from the candidate by more than 0.5
and the candidate is positive, and is left unchanged otherwise. -/
theorem tax_correction_spec (d : InvoiceData)
    (h : d.cgst_amount.isSome = true ∨ d.sgst_amount.isSome = true) :
    (d.tax = none →
      (round2 (d.cgst_amount.getD 0 + d.sgst_amount.getD 0) > 0 →
        (apply_math_corrections d).tax =
          some (round2 (d.cgst_amount.getD 0 + d.sgst_amount.getD 0))) ∧
      (¬ round2 (d.cgst_amount.getD 0 + d.sgst_amount.getD 0) > 0 →
        (apply_math_corrections d).tax = none)) ∧
    (∀ t, d.tax = some t →
      ((abs (round2 (d.cgst_amount.getD 0 + d.sgst_amount.getD 0) - t) > 0.5 ∧
          round2 (d.cgst_amount.getD 0 + d.sgst_amount.getD 0) > 0) →
        (apply_math_corrections d).tax =
          some (round2 (d.cgst_amount.getD 0 + d.sgst_amount.getD 0))) ∧
      (¬(abs (round2 (d.cgst_amount.getD 0 + d.sgst_amount.getD 0) - t) > 0.5 ∧
          round2 (d.cgst_amount.getD 0 + d.sgst_amount.getD 0) > 0) →
        (apply_math_corrections d).tax = some t)) := by
  have hp : (d.cgst_amount.isSome || d.sgst_amount.isSome) = true := by
    rcases h with h | h <;> simp [h]
  have hb : (apply_math_corrections d).tax = (fixTax d).tax :=
    corrections_tax_eq_fixTax_tax d
  rw [hb, fixTax_tax_eq, if_pos hp]
  constructor
  · intro ht
    rw [ht]
    constructor
    · intro hpos
      rw [if_pos hpos]
    · intro hneg
      rw [if_neg hneg]
  · intro t ht
    rw [ht]
    dsimp only
    constructor
    · intro hc
      rw [if_pos hc]
    · intro hc
      rw [if_neg hc]

/-- Witness for C7 at the record with CGST 9.00 and SGST 9.00 and no tax: the
candidate 18.00 is positive and an absent tax is filled with it. -/
theorem tax_correction_spec_witness :
    cgstPair.cgst_amount.isSome = true ∧
    round2 (cgstPair.cgst_amount.getD 0 + cgstPair.sgst_amount.getD 0) > 0 ∧
    (apply_math_corrections cgstPair).tax =
      some (round2 (cgstPair.cgst_amount.getD 0 + cgstPair.sgst_amount.getD 0)) :=
  ⟨by decide, by decide,
   ((tax_correction_spec cgstPair (Or.inl (by decide))).1 rfl).1 (by decide)⟩

/-- Counterexample to C2 as stated: with subtotal 100.00 and stated total
105.00 (computed total 100.00), the check emits its one error finding, but the
signed difference between the computed and stated totals is −5.00 and the
message does not contain it — the code formats the absolute difference. -/
theorem grand_total_signed_difference_counterexample :
    check_mathematical_consistency overTotal =
      [{ field := "total_amount", message := mathErrorMessage 100 0 0 105,
         severity := "error" }] ∧
    fmt2 ((100 : ℚ) - 0 + 0 - 105) = "-5.00" ∧
    strContains (mathErrorMessage 100 0 0 105) "-5.00" = false :=
  ⟨by decide, by decide, by decide⟩

/-- C2 (amended): the grand-total check runs only when subtotal and total are
both present; it compares `subtotal − discount(or 0) + tax(or 0)` against the
stated total and emits exactly one error finding on `total_amount` when they
differ by more than 0.01; the message contains (to two decimals) the four
literal numbers, the computed total, and the absolute difference between the
computed and stated totals (not the signed difference). -/
theorem grand_total_check_spec (d : InvoiceData) (s t : ℚ)
    (hs : d.subtotal = some s) (ht : d.total_amount = some t) :
    (∀ d2 : InvoiceData, d2.subtotal = none ∨ d2.total_amount = none →
      check_mathematical_consistency d2 = []) ∧
    (abs (s - d.discount_amount.getD 0 + d.tax.getD 0 - t) ≤ 0.01 →
      check_mathematical_consistency d = []) ∧
    (abs (s - d.discount_amount.getD 0 + d.tax.getD 0 - t) > 0.01 →
      check_mathematical_consistency d =
        [{ field := "total_amount",
           message := mathErrorMessage s (d.discount_amount.getD 0) (d.tax.getD 0) t,
           severity := "error" }] ∧
      strContains (mathErrorMessage s (d.discount_amount.getD 0) (d.tax.getD 0) t)
        (fmt2 s) = true ∧
      strContains (mathErrorMessage s (d.discount_amount.getD 0) (d.tax.getD 0) t)
        (fmt2 (d.discount_amount.getD 0)) = true ∧
      strContains (mathErrorMessage s (d.discount_amount.getD 0) (d.tax.getD 0) t)
        (fmt2 (d.tax.getD 0)) = true ∧
      strContains (mathErrorMessage s (d.discount_amount.getD 0) (d.tax.getD 0) t)
        (fmt2 t) = true ∧
      strContains (mathErrorMessage s (d.discount_amount.getD 0) (d.tax.getD 0) t)
        (fmt2 (abs (s - d.discount_amount.getD 0 + d.tax.getD 0 - t))) = true) := by
  refine ⟨?_, ?_, ?_⟩
  · intro d2 h2
    unfold check_mathematical_consistency
    rcases h2 with h2 | h2
    · rw [h2]
    · rw [h2]
      cases d2.subtotal <;> rfl
  · intro hle
    unfold check_mathematical_consistency
    rw [hs, ht]
    dsimp only
    rw [if_neg (not_lt.mpr hle)]
  · intro hgt
    refine ⟨?_, ?_, ?_, ?_, ?_, ?_⟩
    · unfold check_mathematical_consistency
      rw [hs, ht]
      dsimp only
      rw [if_pos hgt]
    · exact strContains_of_parts _ "Math error: Subtotal (" _
        (") - Discount (" ++ fmt2 (d.discount_amount.getD 0) ++ ") + Tax (" ++
          fmt2 (d.tax.getD 0) ++ ") = " ++
          fmt2 (s - d.discount_amount.getD 0 + d.tax.getD 0) ++
          ", but Grand Total is " ++ fmt2 t ++ ". Difference: " ++
          fmt2 (abs (s - d.discount_amount.getD 0 + d.tax.getD 0 - t)))
        (by simp [mathErrorMessage, String.append_assoc])
    · exact strContains_of_parts _
        ("Math error: Subtotal (" ++ fmt2 s ++ ") - Discount (") _
        (") + Tax (" ++ fmt2 (d.tax.getD 0) ++ ") = " ++
          fmt2 (s - d.discount_amount.getD 0 + d.tax.getD 0) ++
          ", but Grand Total is " ++ fmt2 t ++ ". Difference: " ++
          fmt2 (abs (s - d.discount_amount.getD 0 + d.tax.getD 0 - t)))
        (by simp [mathErrorMessage, String.append_assoc])
    · exact strContains_of_parts _
        ("Math error: Subtotal (" ++ fmt2 s ++ ") - Discount (" ++
          fmt2 (d.discount_amount.getD 0) ++ ") + Tax (") _
        (") = " ++ fmt2 (s - d.discount_amount.getD 0 + d.tax.getD 0) ++
          ", but Grand Total is " ++ fmt2 t ++ ". Difference: " ++
          fmt2 (abs (s - d.discount_amount.getD 0 + d.tax.getD 0 - t)))
        (by simp [mathErrorMessage, String.append_assoc])
    · exact strContains_of_parts _
        ("Math error: Subtotal (" ++ fmt2 s ++ ") - Discount (" ++
          fmt2 (d.discount_amount.getD 0) ++ ") + Tax (" ++ fmt2 (d.tax.getD 0) ++
          ") = " ++ fmt2 (s - d.discount_amount.getD 0 + d.tax.getD 0) ++
          ", but Grand Total is ") _
        (". Difference: " ++
          fmt2 (abs (s - d.discount_amount.getD 0 + d.tax.getD 0 - t)))
        (by simp [mathErrorMessage, String.append_assoc])
    · exact strContains_of_parts _
        ("Math error: Subtotal (" ++ fmt2 s ++ ") - Discount (" ++
          fmt2 (d.discount_amount.getD 0) ++ ") + Tax (" ++ fmt2 (d.tax.getD 0) ++
          ") = " ++ fmt2 (s - d.discount_amount.getD 0 + d.tax.getD 0) ++
          ", but Grand Total is " ++ fmt2 t ++ ". Difference: ") _ ""
        (by simp [mathErrorMessage, String.append_assoc])

/-- Witness for C2 at scenario B (subtotal 100, discount 10, tax 9, total
105): the difference 6.00 exceeds the tolerance, one error finding is emitted
and its message carries the numbers. -/
theorem grand_total_check_spec_witness :
    abs ((100 : ℚ) - 10 + 9 - 105) > 0.01 ∧
    check_mathematical_consistency scenarioB =
      [{ field := "total_amount", message := mathErrorMessage 100 10 9 105,
         severity := "error" }] ∧
    strContains (mathErrorMessage 100 10 9 105) (fmt2 105) = true := by
  have h := (grand_total_check_spec scenarioB 100 105 rfl rfl).2.2 (by decide)
  exact ⟨by decide, h.1, h.2.2.2.2.1⟩

theorem truthyStrOpt_of_ne (s : String) (h : s ≠ "") : truthyStrOpt (some s) = true := by
  have hdata : s.data ≠ [] := fun hnil => h (String.ext hnil)
  show (!s.toList.isEmpty) = true
  cases hd : s.toList with
  | nil => exact absurd hd hdata
  | cons a t => rfl

/-- C5: with a duplicate-lookup collaborator supplied, a non-empty invoice
number and a prior record with the same number, the duplicate check produces
exactly one error finding on `invoice_number` whose message names the
conflicting record's identifier, and that finding reaches the validate
output; when the lookup raises, the duplicate check contributes zero findings
and validate returns the same result as without a collaborator. -/
theorem duplicate_check_spec :
    (∀ (d : InvoiceData) (lookup : String → LookupResult) (num : String) (id : Nat),
      d.invoice_number = some num → num ≠ "" → lookup num = .found id →
      check_duplicate_invoice d lookup =
        [{ field := "invoice_number",
           message := "Invoice number \u0027" ++ num ++ "\u0027 already exists (ID: " ++
             toString id ++ ")",
           severity := "error" }] ∧
      strContains ("Invoice number \u0027" ++ num ++ "\u0027 already exists (ID: " ++
        toString id ++ ")") (toString id) = true ∧
      { field := "invoice_number",
        message := "Invoice number \u0027" ++ num ++ "\u0027 already exists (ID: " ++
          toString id ++ ")",
        severity := "error" } ∈ (validate d (some lookup)).errors) ∧
    (∀ (d : InvoiceData) (lookup : String → LookupResult),
      (∀ x, lookup x = .raised) →
      check_duplicate_invoice d lookup = [] ∧
      validate d (some lookup) = validate d none) := by
  constructor
  · intro d lookup num id hnum hne hfound
    have hchk : check_duplicate_invoice d lookup =
        [{ field := "invoice_number",
           message := "Invoice number \u0027" ++ num ++ "\u0027 already exists (ID: " ++
             toString id ++ ")",
           severity := "error" }] := by
      unfold check_duplicate_invoice
      rw [hnum]
      have htr : (!truthyStrOpt (some num)) = false := by
        rw [truthyStrOpt_of_ne num hne]
        rfl
      rw [htr]
      simp only [Bool.false_eq_true, if_false]
      have : (some num).getD "" = num := rfl
      rw [this, hfound]
    refine ⟨hchk, ?_, ?_⟩
    · exact strContains_of_parts _
        ("Invoice number \u0027" ++ num ++ "\u0027 already exists (ID: ") _ ")"
        (by simp [String.append_assoc])
    · unfold validate
      dsimp only
      refine List.mem_append.mpr (Or.inr ?_)
      rw [hchk]
      exact List.mem_singleton_self _
  · intro d lookup hraise
    have hchk : check_duplicate_invoice d lookup = [] := by
      unfold check_duplicate_invoice
      split
      · rfl
      · rw [hraise (d.invoice_number.getD "")]
    refine ⟨hchk, ?_⟩
    unfold validate
    dsimp only
    rw [hchk]

/-- Witness for C5 at the record with invoice number `INV-1`: the
always-finds-42 collaborator yields the single duplicate finding, and the
always-raising collaborator leaves validation as if no collaborator were
supplied. -/
theorem duplicate_check_spec_witness :
    (check_duplicate_invoice okRecord lookupFound42).length = 1 ∧
    validate okRecord (some lookupRaises) = validate okRecord none := by
  constructor
  · have h := (duplicate_check_spec.1 okRecord lookupFound42 "INV-1" 42 rfl (by decide) rfl).1
    rw [h]
    rfl
  · exact (duplicate_check_spec.2 okRecord lookupRaises (fun x => rfl)).2

/-- C10: the math corrector only writes line-item amounts, subtotal, discount
amount, tax and total amount; every other field of the record — vendor name,
invoice number, date, currency, discount percentage, the four GST rate/amount
components — and the number, order, product names, quantities and unit prices
of the line items are unchanged. -/
theorem apply_math_corrections_frame (d : InvoiceData) :
    (apply_math_corrections d).vendor_name = d.vendor_name ∧
    (apply_math_corrections d).invoice_number = d.invoice_number ∧
    (apply_math_corrections d).invoice_date = d.invoice_date ∧
    (apply_math_corrections d).currency = d.currency ∧
    (apply_math_corrections d).discount_percentage = d.discount_percentage ∧
    (apply_math_corrections d).cgst_rate = d.cgst_rate ∧
    (apply_math_corrections d).cgst_amount = d.cgst_amount ∧
    (apply_math_corrections d).sgst_rate = d.sgst_rate ∧
    (apply_math_corrections d).sgst_amount = d.sgst_amount ∧
    (apply_math_corrections d).line_items.length = d.line_items.length ∧
    (apply_math_corrections d).line_items.map LineItem.product_name =
      d.line_items.map LineItem.product_name ∧
    (apply_math_corrections d).line_items.map LineItem.quantity =
      d.line_items.map LineItem.quantity ∧
    (apply_math_corrections d).line_items.map LineItem.unit_price =
      d.line_items.map LineItem.unit_price := by
  obtain ⟨s, da, t, ta, h⟩ := apply_math_corrections_shape d
  rw [h]
  refine ⟨rfl, rfl, rfl, rfl, rfl, rfl, rfl, rfl, rfl, ?_, ?_, ?_, ?_⟩
  · show (d.line_items.map fixLineItem).length = d.line_items.length
    exact List.length_map _ _
  · show (d.line_items.map fixLineItem).map LineItem.product_name = _
    rw [List.map_map]
    exact List.map_congr_left (fun a _ => fixLineItem_product_name a)
  · show (d.line_items.map fixLineItem).map LineItem.quantity = _
    rw [List.map_map]
    exact List.map_congr_left (fun a _ => fixLineItem_quantity a)
  · show (d.line_items.map fixLineItem).map LineItem.unit_price = _
    rw [List.map_map]
    exact List.map_congr_left (fun a _ => fixLineItem_unit_price a)
